import Mathlib

/-!
Verification development for the aws-devpost upload-processing pipeline.

The definitions below are a shallow embedding of the Python code in
src/src/services/aws_service.py (class AWSService) and, for the legacy image
agent, src/src/agents/image_agent.py (class ImageAnalysisAgent).  External
backends (S3, Bedrock, pandas parsing, wall clock) are passed in as explicit
oracle parameters; byte strings are modelled as Lean strings; Python dicts
built by repeated assignment are modelled as association lists whose lookup
returns the last binding for a key (matching dict overwrite semantics).
-/

namespace AwsDevpost

/-- One uploaded multipart file: fastapi UploadFile with its filename,
declared content type, and raw byte content (bytes modelled as String). -/
structure UploadFile where
  filename : Option String
  contentType : Option String
  content : String
deriving DecidableEq

/-- A fastapi HTTPException: status code and detail message. -/
structure HTTPError where
  status : Nat
  detail : String
deriving DecidableEq

/-- Decidable equality for raised-or-returned results. -/
instance {ε α : Type} [DecidableEq ε] [DecidableEq α] : DecidableEq (Except ε α)
  | Except.ok a, Except.ok b =>
    if h : a = b then isTrue (by rw [h]) else isFalse (by intro hc; cases hc; exact h rfl)
  | Except.ok _, Except.error _ => isFalse (by intro hc; cases hc)
  | Except.error _, Except.ok _ => isFalse (by intro hc; cases hc)
  | Except.error a, Except.error b =>
    if h : a = b then isTrue (by rw [h]) else isFalse (by intro hc; cases hc; exact h rfl)

/-- Python dict built by assignments d[k] = v, as an association list in
assignment order. -/
abbrev Dict (α : Type) := List (String × α)

/-- Python dict lookup d[k]: the value of the LAST assignment to k, since a
later assignment to the same key overwrites the earlier one. -/
def dictLookup {α : Type} (d : Dict α) (k : String) : Option α :=
  (d.reverse.find? (fun e => e.1 == k)).map (fun e => e.2)

/-- Truthiness-based defaulting, Python expression s or d (None and the empty
string are falsy). -/
def strOr (s : Option String) (d : String) : String :=
  match s with
  | none => d
  | some s => if s = "" then d else s

/-- Characters kept verbatim by the title sanitizer: the regex class
[A-Za-z0-9_] (ASCII letters, digits, underscore). -/
def keepChar (c : Char) : Bool :=
  c.isAlpha || c.isDigit || c == '_'

/-- Core of re.sub applied with pattern [^A-Za-z0-9_]+ and replacement _ :
a maximal run of characters outside the class becomes a single underscore.
The Boolean flag records whether the previous character was part of a run
already replaced (further characters of the same run are then dropped). -/
def sanitizeAux : Bool → List Char → List Char
  | _, [] => []
  | prevRun, c :: rest =>
    if keepChar c then c :: sanitizeAux false rest
    else if prevRun then sanitizeAux true rest
    else '_' :: sanitizeAux true rest

/-- String prefix test (s.startswith(pre)), computed on the character lists
so that concrete instances reduce in the kernel. -/
def startsWithStr (s pre : String) : Bool :=
  pre.data.isPrefixOf s.data

/-- String suffix test (s.endswith(suf)), computed on the character lists. -/
def endsWithStr (s suf : String) : Bool :=
  suf.data.isSuffixOf s.data

/-- Python str.lower(), computed per character. -/
def toLowerStr (s : String) : String :=
  String.mk (s.data.map Char.toLower)

/-- Python slicing s[:n], computed on the character list. -/
def takeStr (s : String) (n : Nat) : String :=
  String.mk (s.data.take n)

/-- Fuel-indexed core of Python str.replace(pat, replacement-empty): remove
every non-overlapping occurrence of pat, scanning left to right. -/
def removePatAux (pat : List Char) : Nat → List Char → List Char
  | 0, l => l
  | _ + 1, [] => []
  | fuel + 1, c :: rest =>
    if pat.isPrefixOf (c :: rest) then
      removePatAux pat fuel (rest.drop (pat.length - 1))
    else c :: removePatAux pat fuel rest

/-- Python s.replace(pat, empty-string) for a non-empty pattern. -/
def removePat (pat s : String) : String :=
  String.mk (removePatAux pat.data s.data.length s.data)

/-- Python str.strip(): drop whitespace characters from both ends. -/
def stripChars (l : List Char) : List Char :=
  ((l.dropWhile Char.isWhitespace).reverse.dropWhile Char.isWhitespace).reverse

/-- AWSService._sanitize_title: strip surrounding whitespace, then replace
every maximal run of non [A-Za-z0-9_] characters by one underscore
(re.sub with pattern [^A-Za-z0-9_]+ and replacement _). -/
def sanitize_title (title : String) : String :=
  String.mk (sanitizeAux false (stripChars title.data))

/-- AWSService._generate_folder_name: the UTC timestamp (oracle parameter,
strftime of percent-Y percent-m percent-d underscore percent-H percent-M
percent-S), with an underscore and the sanitized title appended when the
title is truthy (neither None nor empty). -/
def generate_folder_name (timestamp : String) (title : Option String) : String :=
  match title with
  | some t => if t = "" then timestamp else timestamp ++ "_" ++ sanitize_title t
  | none => timestamp

/-- Image validation in AWSService.storage_agent: content type must be truthy
and start with image/ . -/
def imageValid (f : UploadFile) : Bool :=
  match f.contentType with
  | none => false
  | some ct => (ct != "") && startsWithStr ct "image/"

/-- Excel validation in AWSService.storage_agent: content type must be truthy
and one of the two accepted spreadsheet MIME types. -/
def excelValid (f : UploadFile) : Bool :=
  match f.contentType with
  | none => false
  | some ct =>
    (ct != "") &&
      (ct == "application/vnd.ms-excel" ||
       ct == "application/vnd.openxmlformats-officedocument.spreadsheetml.sheet")

/-- Document validation in AWSService.storage_agent: filename must be truthy
and end (case-insensitively) in .txt or .pdf. -/
def documentValid (f : UploadFile) : Bool :=
  match f.filename with
  | none => false
  | some n => (n != "") && (endsWithStr (toLowerStr n) ".txt" || endsWithStr (toLowerStr n) ".pdf")

/-- The S3 object key used by AWSService.upload_file_to_s3. -/
def s3Key (folder subfolder filename : String) : String :=
  folder ++ "/" ++ subfolder ++ "/" ++ filename

/-- AWSService.upload_file_to_s3: attempt the S3 write (the oracle s3ok says
whether the backend accepts the key); on success return the s3:// URL, on a
backend error raise HTTP 500. -/
def upload_file_to_s3 (s3ok : String → Bool) (bucket folder subfolder filename : String) :
    Except HTTPError String :=
  let key := s3Key folder subfolder filename
  if s3ok key then Except.ok ("s3://" ++ bucket ++ "/" ++ key)
  else Except.error { status := 500, detail := "Failed to upload file to storage" }

/-- A stored file reference recorded by the storage stage. -/
structure StoredRef where
  filename : String
  s3_url : String
deriving DecidableEq

/-- Accumulated output of one per-category storage loop: the stored
references, the in-memory content dict (filename to content and content
type), and the S3 writes performed (key and bytes, in order). -/
structure StoreAcc where
  refs : List StoredRef
  contents : Dict (String × String)
  writes : List (String × String)
deriving DecidableEq

/-- The image loop of AWSService.storage_agent, from position idx on.  Each
image is validated; on failure of validation the item is skipped.  The bytes
are read, the S3 write attempted; an upload error (the HTTPException raised
by upload_file_to_s3) is caught by the per-item handler and the item is
skipped.  On success the reference is appended and the content dict updated
under the (possibly defaulted) filename. -/
def storeImagesAux (s3ok : String → Bool) (bucket folder : String) :
    Nat → List UploadFile → StoreAcc
  | _, [] => { refs := [], contents := [], writes := [] }
  | idx, img :: rest =>
    let tail := storeImagesAux s3ok bucket folder (idx + 1) rest
    if imageValid img then
      let fname := strOr img.filename ("image_" ++ toString idx ++ ".jpg")
      match upload_file_to_s3 s3ok bucket folder "images" fname with
      | Except.ok url =>
        { refs := { filename := fname, s3_url := url } :: tail.refs
          contents := (fname, (img.content, img.contentType.getD "")) :: tail.contents
          writes := (s3Key folder "images" fname, img.content) :: tail.writes }
      | Except.error _ => tail
    else tail

/-- The Excel branch of AWSService.storage_agent: validate, read bytes,
attempt the S3 write; any error is caught (logged) and leaves the Excel slot
empty.  Returns the optional reference, the optional retained bytes, and the
S3 writes performed. -/
def storeExcel (s3ok : String → Bool) (bucket folder : String) :
    Option UploadFile → Option StoredRef × Option String × List (String × String)
  | none => (none, none, [])
  | some f =>
    if excelValid f then
      let fname := strOr f.filename "data.xlsx"
      match upload_file_to_s3 s3ok bucket folder "excel" fname with
      | Except.ok url =>
        (some { filename := fname, s3_url := url }, some f.content,
         [(s3Key folder "excel" fname, f.content)])
      | Except.error _ => (none, none, [])
    else (none, none, [])

/-- The document loop of AWSService.storage_agent, from position idx on;
same per-item skip discipline as the image loop. -/
def storeDocsAux (s3ok : String → Bool) (bucket folder : String) :
    Nat → List UploadFile → StoreAcc
  | _, [] => { refs := [], contents := [], writes := [] }
  | idx, doc :: rest =>
    let tail := storeDocsAux s3ok bucket folder (idx + 1) rest
    if documentValid doc then
      let fname := strOr doc.filename ("document_" ++ toString idx ++ ".txt")
      match upload_file_to_s3 s3ok bucket folder "documents" fname with
      | Except.ok url =>
        { refs := { filename := fname, s3_url := url } :: tail.refs
          contents := (fname, (doc.content, doc.contentType.getD "")) :: tail.contents
          writes := (s3Key folder "documents" fname, doc.content) :: tail.writes }
      | Except.error _ => tail
    else tail

/-- The dict returned by AWSService.storage_agent (binary content fields
included). -/
structure StorageResult where
  folder_name : String
  images : List StoredRef
  excel : Option StoredRef
  documents : List StoredRef
  excel_content : Option String
  image_contents : Dict (String × String)
  document_contents : Dict (String × String)
deriving DecidableEq

/-- AWSService.storage_agent: run the three storage loops and assemble the
result dict; also expose the list of S3 writes performed (key, bytes).  All
per-item backend failures are swallowed by the per-item handlers, so the
stage itself always returns a result. -/
def storage_agent (s3ok : String → Bool) (bucket : String)
    (images : List UploadFile) (excel : Option UploadFile)
    (documents : List UploadFile) (folder_name : String) :
    StorageResult × List (String × String) :=
  let si := storeImagesAux s3ok bucket folder_name 0 images
  let se := storeExcel s3ok bucket folder_name excel
  let sd := storeDocsAux s3ok bucket folder_name 0 documents
  ({ folder_name := folder_name
     images := si.refs
     excel := se.1
     documents := sd.refs
     excel_content := se.2.1
     image_contents := si.contents
     document_contents := sd.contents },
   si.writes ++ se.2.2 ++ sd.writes)

/-- Oracle type for the Bedrock multimodal call
(_analyze_with_bedrock_content): prompt text, attachment bytes, media type;
an error value models the ClientError or other exception raised by the
backend, carrying its message. -/
abbrev Bedrock := String → String → String → Except String String

/-- Oracle type for the text-only Bedrock call (_analyze_with_bedrock). -/
abbrev TextBedrock := String → Except String String

/-- One entry of the image_analysis list built by
AWSService.image_analysis_agent. -/
structure ImageAnalysis where
  filename : String
  s3_url : String
  context : String
  image_description : String
  analysis_result : String
  upload_index : Nat
deriving DecidableEq

/-- The prompt assembled per image by AWSService.image_analysis_agent:
optional context line, optional description line, fixed instruction, joined
with newlines. -/
def imagePrompt (context desc : String) : String :=
  String.intercalate "\n"
    ((if context = "" then [] else ["Context: " ++ context]) ++
     (if desc = "" then [] else ["Image Description: " ++ desc]) ++
     ["Please analyze this image and provide detailed insights."])

/-- The per-image loop of AWSService.image_analysis_agent over the stored
references, from position idx on.  A reference whose filename has no stored
content is skipped.  The description is selected positionally (empty when
the index is out of range).  A Bedrock failure is caught by the per-item
handler and the image is skipped: no entry is emitted for it. -/
def imageAnalysisAux (bedrock : Bedrock) (contents : Dict (String × String))
    (context : String) (descriptions : List String) :
    Nat → List StoredRef → List ImageAnalysis
  | _, [] => []
  | idx, ref :: rest =>
    let tail := imageAnalysisAux bedrock contents context descriptions (idx + 1) rest
    match dictLookup contents ref.filename with
    | none => tail
    | some cd =>
      let desc := descriptions.getD idx ""
      match bedrock (imagePrompt context desc) cd.1 cd.2 with
      | Except.ok text =>
        { filename := ref.filename, s3_url := ref.s3_url, context := context
          image_description := desc, analysis_result := text, upload_index := idx } :: tail
      | Except.error _ => tail

/-- AWSService.image_analysis_agent: analyze each stored image with the
retained byte content; per-image failures never abort the batch. -/
def image_analysis_agent (bedrock : Bedrock) (storage : StorageResult)
    (context : String) (descriptions : List String) : List ImageAnalysis :=
  imageAnalysisAux bedrock storage.image_contents context descriptions 0 storage.images

/-- One entry of the results list built by the legacy
ImageAnalysisAgent.analyze_images (src/src/agents/image_agent.py): the
spread image_info fields plus context, analysis_result, and, for a failed
image, the error annotation. -/
structure LegacyImageAnalysis where
  filename : String
  s3_url : String
  context : String
  analysis_result : String
  error : Option String
deriving DecidableEq

/-- The prompt used by the legacy ImageAnalysisAgent.analyze_images. -/
def legacyPrompt (context : String) : String :=
  context ++ "\nPlease analyze this image in detail."

/-- Legacy ImageAnalysisAgent.analyze_images: zip the stored references with
the upload files; on a Bedrock ClientError the entry is still emitted as a
placeholder marked failed, with the error message recorded. -/
def analyze_images (bedrock : Bedrock) (images : List StoredRef)
    (context : String) (files : List UploadFile) : List LegacyImageAnalysis :=
  (images.zip files).map fun p =>
    match bedrock (legacyPrompt context) p.2.content (p.2.contentType.getD "") with
    | Except.ok text =>
      { filename := p.1.filename, s3_url := p.1.s3_url, context := context
        analysis_result := text, error := none }
    | Except.error e =>
      { filename := p.1.filename, s3_url := p.1.s3_url, context := context
        analysis_result := "Error: Failed to analyze image"
        error := some ("Bedrock error analyzing image " ++ p.1.filename ++ ": " ++ e) }

/-- A parsed spreadsheet (the pandas DataFrame produced by read_excel):
column names and rows, cell values rendered as strings. -/
structure DataFrame where
  columns : List String
  rows : List (List String)
deriving DecidableEq

/-- Oracle type for pandas read_excel on the stored bytes. -/
abbrev ParseExcel := String → Except String DataFrame

/-- One per-row insight entry of the Excel analysis. -/
structure ExcelInsight where
  row_index : Nat
  summary : String
deriving DecidableEq

/-- The excel_analysis dict built by AWSService.excel_analysis_agent. -/
structure ExcelAnalysis where
  s3_url : String
  context : String
  analysis_result : String
  row_count : Nat
  column_count : Nat
  columns : List String
  insights : List ExcelInsight
deriving DecidableEq

/-- Row rendering used for the prompt digest: column colon value pairs
joined by commas (iterrows paired with the column names). -/
def rowSummaryColon (cols row : List String) : String :=
  String.intercalate ", " ((cols.zip row).map fun p => p.1 ++ ": " ++ p.2)

/-- Row rendering used for insights: column equals value pairs joined by
commas. -/
def rowSummaryEq (cols row : List String) : String :=
  String.intercalate ", " ((cols.zip row).map fun p => p.1 ++ "=" ++ p.2)

/-- The Bedrock prompt built by AWSService.excel_analysis_agent: all rows are
rendered, the digest keeps the first 10, and the full column list and the
true total row count are appended, followed by the fixed instruction. -/
def excelPromptFor (context : String) (df : DataFrame) : String :=
  let excel_summary :=
    String.intercalate "; " ((df.rows.map (rowSummaryColon df.columns)).take 10)
  "Context: " ++ context ++
  "\nExcel Data Summary: " ++ excel_summary ++
  "\nColumn Headers: " ++ String.intercalate ", " df.columns ++
  "\nTotal Rows: " ++ toString df.rows.length ++
  "\n\nPlease analyze this Excel data and provide insights including:\n" ++
  "1. Data summary and patterns\n2. Key metrics and statistics\n" ++
  "3. Anomalies or notable observations\n4. Recommendations based on the data"

/-- The insights list built by AWSService.excel_analysis_agent: the first 5
rows (df.head(5).iterrows()), each tagged with its original row index. -/
def excelInsightsFor (df : DataFrame) : List ExcelInsight :=
  (df.rows.take 5).enum.map fun p =>
    { row_index := p.1
      summary := "Row " ++ toString p.1 ++ ": " ++ rowSummaryEq df.columns p.2 }

/-- AWSService.excel_analysis_agent: with no stored Excel reference or no
retained (truthy) bytes, return the empty analysis.  Otherwise parse the
bytes; a parse failure or a Bedrock failure is caught by the stage handler
and re-raised as HTTP 500.  On success return the analysis dict, whatever
the row count (a zero-row frame is not rejected). -/
def excel_analysis_agent (bedrock : TextBedrock) (parseExcel : ParseExcel)
    (storage : StorageResult) (context : String) :
    Except HTTPError (Option ExcelAnalysis) :=
  match storage.excel, storage.excel_content with
  | some ref, some c =>
    if c = "" then Except.ok none
    else
      match parseExcel c with
      | Except.error _ =>
        Except.error { status := 500, detail := "Excel analysis agent failed" }
      | Except.ok df =>
        match bedrock (excelPromptFor context df) with
        | Except.error _ =>
          Except.error { status := 500, detail := "Excel analysis agent failed" }
        | Except.ok analysis =>
          Except.ok (some
            { s3_url := ref.s3_url, context := context, analysis_result := analysis
              row_count := df.rows.length, column_count := df.columns.length
              columns := df.columns, insights := excelInsightsFor df })
  | _, _ => Except.ok none

/-- One entry of the document_analysis list built by
AWSService.document_analysis_agent. -/
structure DocAnalysis where
  filename : String
  s3_url : String
  context : String
  document_type : String
  analysis_result : String
deriving DecidableEq

/-- The prompt built per text document by AWSService.document_analysis_agent
(content truncated to its first 2000 characters). -/
def docPrompt (context text : String) : String :=
  "Context: " ++ context ++
  "\nDocument Type: Text File\nDocument Content: " ++ takeStr text 2000 ++
  "...  # Limit content for processing\n\n" ++
  "Please analyze this text document and provide insights including:\n" ++
  "1. Document summary and main topics\n2. Key information and themes\n" ++
  "3. Important data or findings\n4. Recommendations based on the content"

/-- AWSService.document_analysis_agent: per stored document, text files go
through Bedrock (failures skip the item), PDF files get a fixed stub result
without content extraction. -/
def document_analysis_agent (bedrock : TextBedrock) (storage : StorageResult)
    (context : String) : List DocAnalysis :=
  storage.documents.foldr
    (fun ref tail =>
      match dictLookup storage.document_contents ref.filename with
      | none => tail
      | some cd =>
        if endsWithStr (toLowerStr ref.filename) ".txt" then
          match bedrock (docPrompt context cd.1) with
          | Except.ok text =>
            { filename := ref.filename, s3_url := ref.s3_url, context := context
              document_type := "Text", analysis_result := text } :: tail
          | Except.error _ => tail
        else if endsWithStr (toLowerStr ref.filename) ".pdf" then
          { filename := ref.filename, s3_url := ref.s3_url, context := context
            document_type := "PDF"
            analysis_result := "PDF document '" ++ ref.filename ++
              "' uploaded successfully. PDF content analysis requires additional processing libraries." } :: tail
        else tail)
    []

/-- One item of the single DynamoDB table.  Only the attributes read by the
query stage are modelled; a field is none when the attribute is absent from
the item (profile items written by the auth service carry none for all
project attributes). -/
structure DbItem where
  pk : String
  sk : String
  title : Option String
  folder_name : Option String
  created_at : Option String
  context : Option String
  images : Option (List ImageAnalysis)
  excel : Option ExcelAnalysis
  documents : Option (List DocAnalysis)
deriving DecidableEq

/-- The DynamoDB table contents. -/
abbrev Table := List DbItem

/-- DynamoDB put_item: unconditional overwrite of the item with the same
composite key. -/
def put_item (t : Table) (it : DbItem) : Table :=
  t.filter (fun x => !(x.pk == it.pk && x.sk == it.sk)) ++ [it]

/-- DynamoDB get_item by composite key. -/
def get_item (t : Table) (pk sk : String) : Option DbItem :=
  t.find? (fun x => x.pk == pk && x.sk == sk)

/-- Lexicographic order on character lists by code point (the ASCII portion
coincides with the UTF-8 byte order DynamoDB sorts keys by). -/
def charListLe : List Char → List Char → Bool
  | [], _ => true
  | _ :: _, [] => false
  | a :: as, b :: bs =>
    if a.toNat = b.toNat then charListLe as bs
    else decide (a.toNat < b.toNat)

/-- String order by code points, used for the sort-key ordering. -/
def strLeB (a b : String) : Bool := charListLe a.data b.data

theorem charListLe_total : ∀ x y : List Char, charListLe x y = true ∨ charListLe y x = true
  | [], _ => Or.inl rfl
  | _ :: _, [] => Or.inr rfl
  | a :: as, b :: bs => by
    simp only [charListLe]
    by_cases hab : a.toNat = b.toNat
    · rw [if_pos hab, if_pos hab.symm]
      exact charListLe_total as bs
    · rw [if_neg hab, if_neg (fun h => hab h.symm)]
      simp only [decide_eq_true_eq]
      omega

theorem charListLe_trans :
    ∀ x y z : List Char, charListLe x y = true → charListLe y z = true →
      charListLe x z = true
  | [], _, _ => by intro _ _; rfl
  | _ :: _, [], _ => by intro h _; simp [charListLe] at h
  | _ :: _, _ :: _, [] => by intro _ h; simp [charListLe] at h
  | a :: as, b :: bs, c :: cs => by
    intro h1 h2
    simp only [charListLe] at h1 h2 ⊢
    by_cases hab : a.toNat = b.toNat <;> by_cases hbc : b.toNat = c.toNat
    · rw [if_pos hab] at h1
      rw [if_pos hbc] at h2
      rw [if_pos (hab.trans hbc)]
      exact charListLe_trans as bs cs h1 h2
    · rw [if_pos hab] at h1
      rw [if_neg hbc] at h2
      simp only [decide_eq_true_eq] at h2
      rw [if_neg (show ¬ a.toNat = c.toNat by omega)]
      simp only [decide_eq_true_eq]
      omega
    · rw [if_neg hab] at h1
      rw [if_pos hbc] at h2
      simp only [decide_eq_true_eq] at h1
      rw [if_neg (show ¬ a.toNat = c.toNat by omega)]
      simp only [decide_eq_true_eq]
      omega
    · rw [if_neg hab] at h1
      rw [if_neg hbc] at h2
      simp only [decide_eq_true_eq] at h1 h2
      rw [if_neg (show ¬ a.toNat = c.toNat by omega)]
      simp only [decide_eq_true_eq]
      omega

/-- Descending sort-key order used by the query (ScanIndexForward=False). -/
def skGe (a b : DbItem) : Prop := strLeB b.sk a.sk = true

instance : DecidableRel skGe := fun a b => inferInstanceAs (Decidable (strLeB b.sk a.sk = true))

instance : IsTotal DbItem skGe :=
  ⟨fun a b => (charListLe_total b.sk.data a.sk.data).imp id id⟩

instance : IsTrans DbItem skGe :=
  ⟨fun _ _ _ hab hbc => charListLe_trans _ _ _ hbc hab⟩

/-- DynamoDB query with a partition-key-only condition, descending sort-key
order, and a limit: note there is NO sort-key (record type) condition, the
whole partition is eligible. -/
def queryDesc (t : Table) (pk : String) (limit : Nat) : List DbItem :=
  ((t.filter (fun x => x.pk == pk)).insertionSort skGe).take limit

/-- The return dict of AWSService.dynamodb_storage_agent. -/
structure DbResult where
  status : String
  user_id : String
  project_key : String
  timestamp : String
deriving DecidableEq

/-- AWSService.dynamodb_storage_agent: build the consolidated project item
(analysis attributes only present when their lists are truthy) and write it
with one unconditional put_item. -/
def dynamodb_storage_agent (t : Table) (user_id title folder_name context timestamp : String)
    (image_analysis : List ImageAnalysis) (excel_analysis : Option ExcelAnalysis)
    (document_analysis : List DocAnalysis) : Table × DbResult :=
  let item : DbItem :=
    { pk := "USER#" ++ user_id
      sk := "PROJECT#" ++ folder_name
      title := some title
      folder_name := some folder_name
      created_at := some timestamp
      context := some context
      images := if image_analysis.isEmpty then none else some image_analysis
      excel := excel_analysis
      documents := if document_analysis.isEmpty then none else some document_analysis }
  (put_item t item,
   { status := "success", user_id := user_id
     project_key := "USER#" ++ user_id ++ "#PROJECT#" ++ folder_name
     timestamp := timestamp })

/-- Python bool() of an optional list attribute: false when absent and when
present but empty. -/
def listTruthy {α : Type} : Option (List α) → Bool
  | none => false
  | some l => !l.isEmpty

/-- One project summary entry built by AWSService.get_user_projects from a
raw table item. -/
structure ProjectSummary where
  project_id : String
  folder_name : String
  title : String
  created_at : String
  context : String
  has_images : Bool
  has_excel : Bool
  has_documents : Bool
  image_count : Nat
  document_count : Nat
  excel_analyzed : Bool
  documents_analyzed : Bool
deriving DecidableEq

/-- The summary parsing of AWSService.get_user_projects, applied to EVERY
item the query returned (the sort key is only string-replaced, never
filtered by record type). -/
def parseProjectSummary (item : DbItem) : ProjectSummary :=
  let project_id := removePat "PROJECT#" item.sk
  { project_id := project_id
    folder_name := project_id
    title := item.title.getD project_id
    created_at := item.created_at.getD ""
    context := item.context.getD ""
    has_images := listTruthy item.images
    has_excel := item.excel.isSome
    has_documents := listTruthy item.documents
    image_count := if listTruthy item.images then (item.images.getD []).length else 0
    document_count := if listTruthy item.documents then (item.documents.getD []).length else 0
    excel_analyzed := item.excel.isSome
    documents_analyzed := listTruthy item.documents }

/-- The return dict of AWSService.get_user_projects. -/
structure ProjectsResult where
  user_id : String
  total_projects : Nat
  projects : List ProjectSummary
  has_more : Bool
  limit : Nat
deriving DecidableEq

/-- AWSService.get_user_projects: query the whole owner partition (no
record-type condition) newest-first with the given limit, parse every item,
and approximate has_more as returned count equals limit. -/
def get_user_projects (t : Table) (user_id : String) (limit : Nat) : ProjectsResult :=
  let items := queryDesc t ("USER#" ++ user_id) limit
  let projects := items.map parseProjectSummary
  { user_id := user_id
    total_projects := projects.length
    projects := projects
    has_more := items.length == limit
    limit := limit }

/-- The computed metadata block of AWSService.get_project_details. -/
structure ProjectMetadata where
  image_count : Nat
  document_count : Nat
  has_excel : Bool
  has_documents : Bool
  total_files : Nat
deriving DecidableEq

/-- The return dict of AWSService.get_project_details. -/
structure ProjectDetails where
  user_id : String
  project_id : String
  folder_name : String
  title : String
  created_at : String
  context : String
  images : List ImageAnalysis
  excel : Option ExcelAnalysis
  documents : List DocAnalysis
  metadata : ProjectMetadata
deriving DecidableEq

/-- AWSService.get_project_details: point lookup by composite key; absent
item raises 404; otherwise return the full stored record with defaults for
absent attributes plus the computed metadata block. -/
def get_project_details (t : Table) (user_id project_id : String) :
    Except HTTPError ProjectDetails :=
  match get_item t ("USER#" ++ user_id) ("PROJECT#" ++ project_id) with
  | none =>
    Except.error { status := 404
                   detail := "Project " ++ project_id ++ " not found for user " ++ user_id }
  | some item =>
    let imgs := item.images.getD []
    let docs := item.documents.getD []
    let image_count := if listTruthy item.images then imgs.length else 0
    let document_count := if listTruthy item.documents then docs.length else 0
    Except.ok
      { user_id := user_id
        project_id := project_id
        folder_name := project_id
        title := item.title.getD project_id
        created_at := item.created_at.getD ""
        context := item.context.getD ""
        images := imgs
        excel := item.excel
        documents := docs
        metadata :=
          { image_count := image_count
            document_count := document_count
            has_excel := item.excel.isSome
            has_documents := listTruthy item.documents
            total_files := image_count + (if item.excel.isSome then 1 else 0) + document_count } }

/-- The clean response dict of AWSService.process_upload. -/
structure UploadResponse where
  status : String
  folder_name : String
  images_processed : Nat
  excel_processed : Bool
  documents_processed : Nat
  db_reference : String
deriving DecidableEq

/-- AWSService.process_upload: the orchestrator.  Folder generation, storage
stage, the three analysis stages (image and document stages only run for
non-empty input lists, the Excel stage only when an Excel file was passed),
then consolidation.  Only a stage-level HTTPException (here: the Excel
stage) aborts the pipeline; per-item failures are already absorbed inside
the stages. -/
def process_upload (s3ok : String → Bool) (bucket : String)
    (bedrockImage : Bedrock) (bedrockText : TextBedrock) (parseExcel : ParseExcel)
    (t : Table) (user_id : String) (title : Option String)
    (images : List UploadFile) (excel : Option UploadFile) (documents : List UploadFile)
    (context : String) (descriptions : List String)
    (folderTimestamp dbTimestamp : String) :
    Except HTTPError (Table × UploadResponse) :=
  let folder_name := generate_folder_name folderTimestamp title
  let stored := storage_agent s3ok bucket images excel documents folder_name
  let storage := stored.1
  let image_analysis :=
    if images.isEmpty then [] else image_analysis_agent bedrockImage storage context descriptions
  match (if excel.isSome then excel_analysis_agent bedrockText parseExcel storage context
         else Except.ok none) with
  | Except.error e => Except.error e
  | Except.ok excelA =>
    let docA :=
      if documents.isEmpty then [] else document_analysis_agent bedrockText storage context
    let db := dynamodb_storage_agent t user_id (strOr title "Untitled") folder_name context
      dbTimestamp image_analysis excelA docA
    Except.ok (db.1,
      { status := "success"
        folder_name := folder_name
        images_processed := image_analysis.length
        excel_processed := excelA.isSome
        documents_processed := docA.length
        db_reference := db.2.project_key })

/-! Helper lemmas. -/

theorem sanitizeAux_keep : ∀ (b : Bool) (l : List Char), ∀ c ∈ sanitizeAux b l, keepChar c = true
  | _, [], _, hc => by cases hc
  | b, c0 :: rest, c, hc => by
    simp only [sanitizeAux] at hc
    by_cases h0 : keepChar c0 = true
    · rw [if_pos h0] at hc
      rcases List.mem_cons.mp hc with h | h
      · rw [h]; exact h0
      · exact sanitizeAux_keep false rest c h
    · rw [if_neg h0] at hc
      cases b with
      | true => exact sanitizeAux_keep true rest c (by simpa using hc)
      | false =>
        rcases List.mem_cons.mp (by simpa using hc) with h | h
        · rw [h]; decide
        · exact sanitizeAux_keep true rest c h

theorem strOr_getD (f : Option String) (d : String) (h : f.getD "" ≠ "") :
    strOr f d = f.getD "" := by
  cases f with
  | none => exact absurd rfl h
  | some s =>
    simp only [Option.getD_some] at h ⊢
    exact if_neg h

/-- An image the storage loop fully accepts: valid type, truthy filename,
and an S3 backend that accepts its key. -/
def imageOkFor (s3ok : String → Bool) (folder : String) (f : UploadFile) : Prop :=
  imageValid f = true ∧ f.filename.getD "" ≠ "" ∧
  s3ok (s3Key folder "images" (f.filename.getD "")) = true

theorem storeImagesAux_good (s3ok : String → Bool) (bucket folder : String) :
    ∀ (idx : Nat) (l : List UploadFile), (∀ f ∈ l, imageOkFor s3ok folder f) →
      (storeImagesAux s3ok bucket folder idx l).refs.map (fun r => r.filename) =
        l.map (fun f => f.filename.getD "")
  | _, [], _ => rfl
  | idx, f :: rest, h => by
    obtain ⟨hv, hn, hk⟩ := h f (List.mem_cons_self f rest)
    have ih := storeImagesAux_good s3ok bucket folder (idx + 1) rest
      (fun g hg => h g (List.mem_cons_of_mem f hg))
    simp only [storeImagesAux, hv, if_true, strOr_getD _ _ hn, upload_file_to_s3, hk,
      List.map_cons, ih]

theorem storeImagesAux_skipOne (s3ok : String → Bool) (bucket folder : String)
    (bad : UploadFile) (post : List UploadFile)
    (hbv : imageValid bad = true) (hbn : bad.filename.getD "" ≠ "")
    (hbk : s3ok (s3Key folder "images" (bad.filename.getD "")) = false)
    (hpost : ∀ f ∈ post, imageOkFor s3ok folder f) :
    ∀ (idx : Nat) (pre : List UploadFile), (∀ f ∈ pre, imageOkFor s3ok folder f) →
      (storeImagesAux s3ok bucket folder idx (pre ++ bad :: post)).refs.map (fun r => r.filename) =
        (pre ++ post).map (fun f => f.filename.getD "")
  | idx, [], _ => by
    simp only [List.nil_append, storeImagesAux, hbv, if_true, strOr_getD _ _ hbn,
      upload_file_to_s3, hbk]
    simp only [Bool.false_eq_true, if_false]
    exact storeImagesAux_good s3ok bucket folder (idx + 1) post hpost
  | idx, f :: pre, h => by
    obtain ⟨hv, hn, hk⟩ := h f (List.mem_cons_self f pre)
    have ih := storeImagesAux_skipOne s3ok bucket folder bad post hbv hbn hbk hpost
      (idx + 1) pre (fun g hg => h g (List.mem_cons_of_mem f hg))
    simp only [List.cons_append, storeImagesAux, hv, if_true, strOr_getD _ _ hn,
      upload_file_to_s3, hk, List.map_cons]
    exact congrArg (List.cons (f.filename.getD "")) ih

theorem get_item_put_item (t : Table) (it : DbItem) :
    get_item (put_item t it) it.pk it.sk = some it := by
  unfold get_item put_item
  induction t with
  | nil => simp [List.find?]
  | cons x xs ih =>
    rw [List.filter_cons]
    by_cases hx : (!(x.pk == it.pk && x.sk == it.sk)) = true
    · have hneg : ¬ (x.pk == it.pk && x.sk == it.sk) = true := by
        intro hc
        rw [hc] at hx
        exact absurd hx (by decide)
      rw [if_pos hx, List.cons_append,
        @List.find?_cons_of_neg _ (fun y => y.pk == it.pk && y.sk == it.sk) x _ hneg]
      exact ih
    · rw [if_neg hx]
      exact ih

/-! Claim C5. -/

/-- Claim C5, counterexample: the sanitizer does NOT map each non
alphanumeric character to its own underscore; the run of comma and space in
the title collapses to a single underscore, so the sanitized form of the
title Hello, World! differs from the form the claim asserts. -/
theorem c5_counterexample :
    sanitize_title "Hello, World!" ≠ "Hello__World_" ∧
    sanitize_title "Hello, World!" = "Hello_World_" := by decide

/-- Claim C5 (amended): for every non-empty title, the generated folder id is
the timestamp, an underscore, and the sanitized title, where sanitization
maps each maximal RUN of characters outside [A-Za-z0-9_] to one underscore
(so every character of the result is in that class); in particular
Hello, World! is normalized to Hello_World_ and embedded verbatim. -/
theorem c5_folder_id_sanitized (ts t : String) (h : t ≠ "") :
    generate_folder_name ts (some t) = ts ++ "_" ++ sanitize_title t ∧
    (∀ c ∈ (sanitize_title t).data, keepChar c = true) ∧
    sanitize_title "Hello, World!" = "Hello_World_" := by
  refine ⟨?_, ?_, by decide⟩
  · simp [generate_folder_name, h]
  · intro c hc
    exact sanitizeAux_keep false _ c hc

/-- Claim C5, witness for the amended theorem at a concrete title. -/
theorem c5_folder_id_sanitized_witness :
    generate_folder_name "20250101_000000" (some "Hello, World!") =
      "20250101_000000" ++ "_" ++ sanitize_title "Hello, World!" ∧
    (∀ c ∈ (sanitize_title "Hello, World!").data, keepChar c = true) ∧
    sanitize_title "Hello, World!" = "Hello_World_" :=
  c5_folder_id_sanitized "20250101_000000" "Hello, World!" (by decide)

/-! Claim C2. -/

/-- Claim C2, counterexample: with a backend that rejects the write of the
first image, the storage stage does NOT abort: it returns normally with the
failed item skipped and the second image stored, even though
upload_file_to_s3 itself raised a fatal HTTP 500 for the first item. -/
theorem c2_counterexample :
    upload_file_to_s3 (fun k => k != "f/images/a.jpg") "bkt" "f" "images" "a.jpg" =
      Except.error { status := 500, detail := "Failed to upload file to storage" } ∧
    ((storage_agent (fun k => k != "f/images/a.jpg") "bkt"
        [{ filename := some "a.jpg", contentType := some "image/jpeg", content := "A" },
         { filename := some "b.jpg", contentType := some "image/jpeg", content := "B" }]
        none [] "f").1.images.map (fun r => r.filename)) = ["b.jpg"] := by decide

/-- Claim C2 (amended): an unrecoverable S3 write failure for an image IS
raised as a request-level HTTP 500 by upload_file_to_s3, but the per-item
handler of the storage stage catches it and merely skips that item: for any
batch in which every other image is accepted, the stage returns normally
with exactly the other images stored, in order. -/
theorem c2_storage_error_is_per_item_skip (s3ok : String → Bool) (bucket folder : String)
    (pre post : List UploadFile) (bad : UploadFile)
    (hpre : ∀ f ∈ pre, imageOkFor s3ok folder f)
    (hpost : ∀ f ∈ post, imageOkFor s3ok folder f)
    (hbv : imageValid bad = true) (hbn : bad.filename.getD "" ≠ "")
    (hbk : s3ok (s3Key folder "images" (bad.filename.getD "")) = false) :
    upload_file_to_s3 s3ok bucket folder "images" (bad.filename.getD "") =
      Except.error { status := 500, detail := "Failed to upload file to storage" } ∧
    (storage_agent s3ok bucket (pre ++ bad :: post) none [] folder).1.images.map
        (fun r => r.filename) =
      (pre ++ post).map (fun f => f.filename.getD "") := by
  constructor
  · simp [upload_file_to_s3, hbk]
  · exact storeImagesAux_skipOne s3ok bucket folder bad post hbv hbn hbk hpost 0 pre hpre

/-- Example image A used by concrete instances. -/
def exmA : UploadFile := { filename := some "a.jpg", contentType := some "image/jpeg", content := "A" }

/-- Example image B used by concrete instances. -/
def exmB : UploadFile := { filename := some "b.jpg", contentType := some "image/jpeg", content := "B" }

/-- Example S3 backend rejecting exactly the key of example image A. -/
def exS3f : String → Bool := fun k => k != "f/images/a.jpg"

/-- Claim C2, witness for the amended theorem at a concrete batch. -/
theorem c2_storage_error_is_per_item_skip_witness :
    upload_file_to_s3 exS3f "bkt" "f" "images" (exmA.filename.getD "") =
      Except.error { status := 500, detail := "Failed to upload file to storage" } ∧
    (storage_agent exS3f "bkt" ([] ++ exmA :: [exmB]) none [] "f").1.images.map
        (fun r => r.filename) =
      (([] : List UploadFile) ++ [exmB]).map (fun f => f.filename.getD "") :=
  c2_storage_error_is_per_item_skip exS3f "bkt" "f" [] [exmB] exmA
    (fun f hf => absurd hf (List.not_mem_nil f))
    (fun f hf => by
      rcases List.mem_cons.mp hf with h | h
      · rw [h]; exact ⟨by decide, by decide, by decide⟩
      · cases h)
    (by decide) (by decide) (by decide)

theorem get_item_put_item_of_eq (t : Table) (it : DbItem) (pk sk : String)
    (hpk : it.pk = pk) (hsk : it.sk = sk) :
    get_item (put_item t it) pk sk = some it := by
  subst hpk
  subst hsk
  exact get_item_put_item t it

/-! Claim C3. -/

/-- Example spreadsheet upload used by concrete instances. -/
def exXlsx : UploadFile :=
  { filename := some "d.xlsx", contentType := some "application/vnd.ms-excel", content := "XB" }

/-- Example S3 backend accepting every key. -/
def exAllOk : String → Bool := fun _ => true

/-- Example pandas oracle parsing any bytes to a one-column zero-row frame. -/
def exParseZero : ParseExcel := fun _ => Except.ok { columns := ["a"], rows := [] }

/-- Example text inference oracle answering every prompt with T. -/
def exBedText : TextBedrock := fun _ => Except.ok "T"

/-- The zero-row analysis produced in the concrete C3 run. -/
def exZeroAnalysis : ExcelAnalysis :=
  { s3_url := "s3://bkt/f/excel/d.xlsx", context := "", analysis_result := "T",
    row_count := 0, column_count := 1, columns := ["a"], insights := [] }

/-- Claim C3, counterexample: a spreadsheet that parses to zero rows is
processed successfully (no spreadsheet-processing error), the stage returns
an analysis with row_count 0, and the consolidated record containing
row_count 0 IS written to the table. -/
theorem c3_counterexample :
    excel_analysis_agent exBedText exParseZero
        (storage_agent exAllOk "bkt" [] (some exXlsx) [] "f").1 "" =
      Except.ok (some exZeroAnalysis) ∧
    exZeroAnalysis.row_count = 0 ∧
    (get_item (dynamodb_storage_agent [] "u" "t" "f" "" "TS" [] (some exZeroAnalysis) []).1
        "USER#u" "PROJECT#f").map (fun it => it.excel) = some (some exZeroAnalysis) := by
  decide

/-- Claim C3 (amended): a spreadsheet parsing to zero rows does NOT fail: the
analysis stage returns success with row_count 0 and an empty insights list,
and the consolidation stage writes the project record carrying that
zero-row analysis. -/
theorem c3_zero_rows_succeed (bed : TextBedrock) (pe : ParseExcel) (st : StorageResult)
    (context : String) (ref : StoredRef) (c a : String) (df : DataFrame)
    (hx : st.excel = some ref) (hc : st.excel_content = some c) (hne : c ≠ "")
    (hp : pe c = Except.ok df) (h0 : df.rows = [])
    (hb : bed (excelPromptFor context df) = Except.ok a) :
    excel_analysis_agent bed pe st context =
      Except.ok (some { s3_url := ref.s3_url, context := context, analysis_result := a,
                        row_count := 0, column_count := df.columns.length,
                        columns := df.columns, insights := [] }) ∧
    ∀ (t : Table) (uid title folder ts : String)
      (ia : List ImageAnalysis) (da : List DocAnalysis),
      (get_item (dynamodb_storage_agent t uid title folder context ts ia
          (some { s3_url := ref.s3_url, context := context, analysis_result := a,
                  row_count := 0, column_count := df.columns.length,
                  columns := df.columns, insights := [] }) da).1
          ("USER#" ++ uid) ("PROJECT#" ++ folder)).map (fun it => it.excel) =
        some (some { s3_url := ref.s3_url, context := context, analysis_result := a,
                     row_count := 0, column_count := df.columns.length,
                     columns := df.columns, insights := [] }) := by
  constructor
  · simp only [excel_analysis_agent, hx, hc, if_neg hne, hp, hb, excelInsightsFor, h0,
      List.take_nil, List.enum_nil, List.map_nil, List.length_nil]
  · intro t uid title folder ts ia da
    simp only [dynamodb_storage_agent]
    rw [get_item_put_item_of_eq _ _ _ _ rfl rfl]
    rfl

/-- Claim C3, witness for the amended theorem at the concrete zero-row run. -/
theorem c3_zero_rows_succeed_witness :
    excel_analysis_agent exBedText exParseZero
        (storage_agent exAllOk "bkt" [] (some exXlsx) [] "f").1 "" =
      Except.ok (some { s3_url := "s3://bkt/f/excel/d.xlsx", context := "", analysis_result := "T",
                        row_count := 0, column_count := (["a"] : List String).length,
                        columns := ["a"], insights := [] }) ∧
    ∀ (t : Table) (uid title folder ts : String)
      (ia : List ImageAnalysis) (da : List DocAnalysis),
      (get_item (dynamodb_storage_agent t uid title folder "" ts ia
          (some { s3_url := "s3://bkt/f/excel/d.xlsx", context := "", analysis_result := "T",
                  row_count := 0, column_count := (["a"] : List String).length,
                  columns := ["a"], insights := [] }) da).1
          ("USER#" ++ uid) ("PROJECT#" ++ folder)).map (fun it => it.excel) =
        some (some { s3_url := "s3://bkt/f/excel/d.xlsx", context := "", analysis_result := "T",
                     row_count := 0, column_count := (["a"] : List String).length,
                     columns := ["a"], insights := [] }) :=
  c3_zero_rows_succeed exBedText exParseZero
    (storage_agent exAllOk "bkt" [] (some exXlsx) [] "f").1 ""
    { filename := "d.xlsx", s3_url := "s3://bkt/f/excel/d.xlsx" } "XB" "T"
    { columns := ["a"], rows := [] }
    (by decide) (by decide) (by decide) (by decide) (by decide) (by decide)

/-! Claim C7. -/

/-- Claim C7: round trip.  A project record written by the consolidation
stage and then fetched by the detail read, with no intervening writes,
reproduces every stored field unchanged: title, context, created_at, and
the images, spreadsheet, and documents analysis structures (absent analysis
attributes surface as their empty defaults). -/
theorem c7_round_trip (t : Table) (uid title folder context ts : String)
    (ia : List ImageAnalysis) (ea : Option ExcelAnalysis) (da : List DocAnalysis) :
    get_project_details (dynamodb_storage_agent t uid title folder context ts ia ea da).1
        uid folder =
      Except.ok
        { user_id := uid, project_id := folder, folder_name := folder, title := title
          created_at := ts, context := context, images := ia, excel := ea, documents := da
          metadata :=
            { image_count := ia.length, document_count := da.length
              has_excel := ea.isSome, has_documents := !da.isEmpty
              total_files := ia.length + (if ea.isSome then 1 else 0) + da.length } } := by
  simp only [dynamodb_storage_agent]
  unfold get_project_details
  rw [get_item_put_item_of_eq _ _ _ _ rfl rfl]
  cases ia <;> cases da <;> simp [listTruthy]

/-! Claim C1. -/

/-- A three-image batch with distinct names and the given byte contents. -/
def c1Files (x y z : String) : List UploadFile :=
  [{ filename := some "a.jpg", contentType := some "image/jpeg", content := x },
   { filename := some "b.jpg", contentType := some "image/jpeg", content := y },
   { filename := some "c.jpg", contentType := some "image/jpeg", content := z }]

/-- The storage-stage result for that batch with an all-accepting backend. -/
def c1Storage (x y z : String) : StorageResult :=
  (storage_agent exAllOk "bkt" (c1Files x y z) none [] "f").1

/-- Example inference backend failing exactly on byte content B. -/
def exBedFailB : Bedrock := fun _ c _ =>
  if c = "B" then Except.error "boom" else Except.ok ("an " ++ c)

/-- Claim C1, counterexample: three images are stored, the backend fails on
exactly the second, yet the live image analysis stage
(AWSService.image_analysis_agent) emits only TWO entries: the failed image
is dropped entirely instead of appearing as a placeholder entry marked
failed. -/
theorem c1_counterexample :
    (storage_agent exAllOk "bkt" (c1Files "A" "B" "C") none [] "f").1.images.length = 3 ∧
    (image_analysis_agent exBedFailB
        (storage_agent exAllOk "bkt" (c1Files "A" "B" "C") none [] "f").1 "" []).length = 2 ∧
    (image_analysis_agent exBedFailB
        (storage_agent exAllOk "bkt" (c1Files "A" "B" "C") none [] "f").1 "" []).map
      (fun e => e.filename) = ["a.jpg", "c.jpg"] := by decide

/-- Claim C1 (amended): when the inference backend fails for exactly one of
three stored images, the live image analysis stage OMITS that image: it
emits one entry per successfully analyzed image (with valid analysis text
and the original upload index) and none for the failed one, and the overall
request still returns success.  The legacy ImageAnalysisAgent.analyze_images
(not wired into the routes) is the variant that emits one entry per image
with the failed one as a placeholder carrying an error annotation. -/
theorem c1_partial_failure (bedrock : Bedrock) (x y z a1 a3 e b1 b3 el : String)
    (h1 : bedrock (imagePrompt "" "") x "image/jpeg" = Except.ok a1)
    (h2 : bedrock (imagePrompt "" "") y "image/jpeg" = Except.error e)
    (h3 : bedrock (imagePrompt "" "") z "image/jpeg" = Except.ok a3)
    (hl1 : bedrock (legacyPrompt "") x "image/jpeg" = Except.ok b1)
    (hl2 : bedrock (legacyPrompt "") y "image/jpeg" = Except.error el)
    (hl3 : bedrock (legacyPrompt "") z "image/jpeg" = Except.ok b3) :
    image_analysis_agent bedrock (c1Storage x y z) "" [] =
      [{ filename := "a.jpg", s3_url := "s3://bkt/f/images/a.jpg", context := "",
         image_description := "", analysis_result := a1, upload_index := 0 },
       { filename := "c.jpg", s3_url := "s3://bkt/f/images/c.jpg", context := "",
         image_description := "", analysis_result := a3, upload_index := 2 }] ∧
    analyze_images bedrock (c1Storage x y z).images "" (c1Files x y z) =
      [{ filename := "a.jpg", s3_url := "s3://bkt/f/images/a.jpg", context := "",
         analysis_result := b1, error := none },
       { filename := "b.jpg", s3_url := "s3://bkt/f/images/b.jpg", context := "",
         analysis_result := "Error: Failed to analyze image",
         error := some ("Bedrock error analyzing image b.jpg: " ++ el) },
       { filename := "c.jpg", s3_url := "s3://bkt/f/images/c.jpg", context := "",
         analysis_result := b3, error := none }] ∧
    (process_upload exAllOk "bkt" bedrock exBedText exParseZero [] "u" none
        (c1Files x y z) none [] "" [] "TS" "DB").map
      (fun r => (r.2.status, r.2.images_processed)) = Except.ok ("success", 2) := by
  have hst : c1Storage x y z =
      { folder_name := "f"
        images := [{ filename := "a.jpg", s3_url := "s3://bkt/f/images/a.jpg" },
                   { filename := "b.jpg", s3_url := "s3://bkt/f/images/b.jpg" },
                   { filename := "c.jpg", s3_url := "s3://bkt/f/images/c.jpg" }]
        excel := none
        documents := []
        excel_content := none
        image_contents := [("a.jpg", (x, "image/jpeg")), ("b.jpg", (y, "image/jpeg")),
                           ("c.jpg", (z, "image/jpeg"))]
        document_contents := [] } := rfl
  refine ⟨?_, ?_, ?_⟩
  · rw [hst]
    simp [image_analysis_agent, imageAnalysisAux, dictLookup, h1, h2, h3]
  · rw [hst]
    simp [analyze_images, c1Files, hl1, hl2, hl3]
  · have hne : c1Files x y z ≠ [] := by simp [c1Files]
    simp [process_upload, generate_folder_name, image_analysis_agent, imageAnalysisAux,
      dictLookup, dynamodb_storage_agent, strOr,
      show (storage_agent exAllOk "bkt" (c1Files x y z) none [] "TS").1 =
        { folder_name := "TS"
          images := [{ filename := "a.jpg", s3_url := "s3://bkt/TS/images/a.jpg" },
                     { filename := "b.jpg", s3_url := "s3://bkt/TS/images/b.jpg" },
                     { filename := "c.jpg", s3_url := "s3://bkt/TS/images/c.jpg" }]
          excel := none
          documents := []
          excel_content := none
          image_contents := [("a.jpg", (x, "image/jpeg")), ("b.jpg", (y, "image/jpeg")),
                             ("c.jpg", (z, "image/jpeg"))]
          document_contents := [] } from rfl,
      hne, Except.map, h1, h2, h3]

/-- Claim C1, witness for the amended theorem at the concrete failing
backend. -/
theorem c1_partial_failure_witness :
    image_analysis_agent exBedFailB (c1Storage "A" "B" "C") "" [] =
      [{ filename := "a.jpg", s3_url := "s3://bkt/f/images/a.jpg", context := "",
         image_description := "", analysis_result := "an A", upload_index := 0 },
       { filename := "c.jpg", s3_url := "s3://bkt/f/images/c.jpg", context := "",
         image_description := "", analysis_result := "an C", upload_index := 2 }] ∧
    analyze_images exBedFailB (c1Storage "A" "B" "C").images "" (c1Files "A" "B" "C") =
      [{ filename := "a.jpg", s3_url := "s3://bkt/f/images/a.jpg", context := "",
         analysis_result := "an A", error := none },
       { filename := "b.jpg", s3_url := "s3://bkt/f/images/b.jpg", context := "",
         analysis_result := "Error: Failed to analyze image",
         error := some ("Bedrock error analyzing image b.jpg: " ++ "boom") },
       { filename := "c.jpg", s3_url := "s3://bkt/f/images/c.jpg", context := "",
         analysis_result := "an C", error := none }] ∧
    (process_upload exAllOk "bkt" exBedFailB exBedText exParseZero [] "u" none
        (c1Files "A" "B" "C") none [] "" [] "TS" "DB").map
      (fun r => (r.2.status, r.2.images_processed)) = Except.ok ("success", 2) :=
  c1_partial_failure exBedFailB "A" "B" "C" "an A" "an C" "boom" "an A" "an C" "boom"
    (by decide) (by decide) (by decide) (by decide) (by decide) (by decide)

/-! Claim C10. -/

/-- An image upload with the given filename and bytes. -/
def c10Img (f c : String) : UploadFile :=
  { filename := some f, contentType := some "image/png", content := c }

/-- A text document upload with the given filename and bytes. -/
def c10Doc (g d : String) : UploadFile :=
  { filename := some g, contentType := some "text/plain", content := d }

/-- Claim C10: for a batch of two images (and likewise two documents) with
the same filename, the in-memory content map keyed by filename retains only
the LAST bytes, both stored references carry the identical object-storage
key (so the second write overwrote the first, as the final S3 state shows),
and every analysis entry for the repeated filename is computed from the
last bytes. -/
theorem c10_duplicate_filename_last_wins (f g c1 c2 d1 d2 a : String) (bedrock : Bedrock)
    (hf : f ≠ "") (hg : g ≠ "")
    (hgt : endsWithStr (toLowerStr g) ".txt" = true)
    (hb : bedrock (imagePrompt "" "") c2 "image/png" = Except.ok a) :
    dictLookup (storage_agent exAllOk "bkt" [c10Img f c1, c10Img f c2] none [] "fold").1.image_contents f
      = some (c2, "image/png") ∧
    (storage_agent exAllOk "bkt" [c10Img f c1, c10Img f c2] none [] "fold").1.images.map
        (fun r => r.s3_url)
      = ["s3://bkt/fold/images/" ++ f, "s3://bkt/fold/images/" ++ f] ∧
    dictLookup (storage_agent exAllOk "bkt" [c10Img f c1, c10Img f c2] none [] "fold").2
        (s3Key "fold" "images" f)
      = some c2 ∧
    (image_analysis_agent bedrock
        (storage_agent exAllOk "bkt" [c10Img f c1, c10Img f c2] none [] "fold").1 "" []).map
        (fun e => e.analysis_result)
      = [a, a] ∧
    dictLookup (storage_agent exAllOk "bkt" [] none [c10Doc g d1, c10Doc g d2] "fold").1.document_contents g
      = some (d2, "text/plain") ∧
    (storage_agent exAllOk "bkt" [] none [c10Doc g d1, c10Doc g d2] "fold").1.documents.map
        (fun r => r.s3_url)
      = ["s3://bkt/fold/documents/" ++ g, "s3://bkt/fold/documents/" ++ g] := by
  have hdv : ∀ d : String,
      documentValid { filename := some g, contentType := some "text/plain", content := d } = true := by
    intro d
    simp only [documentValid]
    rw [hgt]
    simp [hg]
  refine ⟨?_, ?_, ?_, ?_, ?_, ?_⟩ <;>
    simp [storage_agent, storeImagesAux, storeDocsAux, storeExcel, imageValid,
      startsWithStr, upload_file_to_s3, s3Key, strOr, dictLookup,
      image_analysis_agent, imageAnalysisAux, c10Img, c10Doc, exAllOk, hf, hg, hdv, hb,
      ← String.append_assoc]

/-- Claim C10, witness at concrete duplicate filenames. -/
theorem c10_duplicate_filename_last_wins_witness :
    dictLookup (storage_agent exAllOk "bkt" [c10Img "d.jpg" "C1", c10Img "d.jpg" "C2"] none [] "fold").1.image_contents "d.jpg"
      = some ("C2", "image/png") ∧
    (storage_agent exAllOk "bkt" [c10Img "d.jpg" "C1", c10Img "d.jpg" "C2"] none [] "fold").1.images.map
        (fun r => r.s3_url)
      = ["s3://bkt/fold/images/" ++ "d.jpg", "s3://bkt/fold/images/" ++ "d.jpg"] ∧
    dictLookup (storage_agent exAllOk "bkt" [c10Img "d.jpg" "C1", c10Img "d.jpg" "C2"] none [] "fold").2
        (s3Key "fold" "images" "d.jpg")
      = some "C2" ∧
    (image_analysis_agent exBedFailB
        (storage_agent exAllOk "bkt" [c10Img "d.jpg" "C1", c10Img "d.jpg" "C2"] none [] "fold").1 "" []).map
        (fun e => e.analysis_result)
      = ["an C2", "an C2"] ∧
    dictLookup (storage_agent exAllOk "bkt" [] none [c10Doc "n.txt" "D1", c10Doc "n.txt" "D2"] "fold").1.document_contents "n.txt"
      = some ("D2", "text/plain") ∧
    (storage_agent exAllOk "bkt" [] none [c10Doc "n.txt" "D1", c10Doc "n.txt" "D2"] "fold").1.documents.map
        (fun r => r.s3_url)
      = ["s3://bkt/fold/documents/" ++ "n.txt", "s3://bkt/fold/documents/" ++ "n.txt"] :=
  c10_duplicate_filename_last_wins "d.jpg" "n.txt" "C1" "C2" "D1" "D2" "an C2" exBedFailB
    (by decide) (by decide) (by decide) (by decide)

/-! Claim C4. -/

/-- Example auth-profile item sharing the partition of user u (written by
the auth service with sort key PROFILE, no project attributes). -/
def exProfileItem : DbItem where
  pk := "USER#u"
  sk := "PROFILE"
  title := none
  folder_name := none
  created_at := some "2025-01-01T00:00:00Z"
  context := none
  images := none
  excel := none
  documents := none

/-- Example project item of user u. -/
def exProjectItem : DbItem where
  pk := "USER#u"
  sk := "PROJECT#20250102_x"
  title := some "x"
  folder_name := some "20250102_x"
  created_at := some "2025-01-02T00:00:00Z"
  context := some ""
  images := none
  excel := none
  documents := none

/-- Claim C4, counterexample: the list operation does NOT query only
project-type records: with a profile record in the partition, the returned
list contains a pseudo-project entry parsed from the PROFILE sort key, and
that entry counts toward the limit-based has_more check. -/
theorem c4_counterexample :
    (get_user_projects [exProfileItem, exProjectItem] "u" 2).projects.map
        (fun p => p.project_id) = ["20250102_x", "PROFILE"] ∧
    exProfileItem.sk = "PROFILE" ∧
    (get_user_projects [exProfileItem, exProjectItem] "u" 2).has_more = true := by
  decide

/-- Claim C4 (amended): the list operation queries ALL records under the
owner partition (there is no record-type condition, so a profile record is
included and surfaced as a pseudo-project entry); it returns at most limit
entries, in descending sort-key order (newest-first for project records,
whose sort keys start with the timestamp), every returned entry is parsed
from an item of the owner partition, and has_more is true exactly when the
returned count equals the requested limit. -/
theorem c4_list_projects (t : Table) (uid : String) (limit : Nat) :
    (get_user_projects t uid limit).projects =
      (queryDesc t ("USER#" ++ uid) limit).map parseProjectSummary ∧
    (get_user_projects t uid limit).projects.length =
      min limit (t.filter (fun x => x.pk == "USER#" ++ uid)).length ∧
    List.Sorted skGe (queryDesc t ("USER#" ++ uid) limit) ∧
    (∀ p ∈ (get_user_projects t uid limit).projects,
      ∃ it, it ∈ t ∧ it.pk = "USER#" ++ uid ∧ p = parseProjectSummary it) ∧
    (get_user_projects t uid limit).has_more =
      ((get_user_projects t uid limit).projects.length == limit) ∧
    (get_user_projects t uid limit).total_projects =
      (get_user_projects t uid limit).projects.length ∧
    (get_user_projects t uid limit).limit = limit := by
  refine ⟨rfl, ?_, ?_, ?_, ?_, rfl, rfl⟩
  · simp only [get_user_projects, queryDesc, List.length_map, List.length_take,
      (List.perm_insertionSort skGe _).length_eq]
  · exact List.Pairwise.sublist (List.take_sublist _ _) (List.sorted_insertionSort skGe _)
  · intro p hp
    simp only [get_user_projects] at hp
    obtain ⟨it, hit, hpe⟩ := List.mem_map.mp hp
    have h2 : it ∈ (t.filter (fun x => x.pk == "USER#" ++ uid)).insertionSort skGe :=
      List.take_subset _ _ hit
    have h3 := (List.perm_insertionSort skGe _).mem_iff.mp h2
    have h4 := List.mem_filter.mp h3
    exact ⟨it, h4.1, by simpa using h4.2, hpe.symm⟩
  · simp only [get_user_projects, List.length_map]

/-! Claims C6 and C8: shared storage and analysis lemmas. -/

theorem dictLookup_isSome_of_mem {α : Type} (d : Dict α) (k : String)
    (h : k ∈ d.map (fun e => e.1)) : (dictLookup d k).isSome = true := by
  unfold dictLookup
  obtain ⟨e, he, hek⟩ := List.mem_map.mp h
  have hf : (d.reverse.find? (fun x => x.1 == k)).isSome = true :=
    List.find?_isSome.mpr ⟨e, List.mem_reverse.mpr he, by simp [hek]⟩
  obtain ⟨x, hx⟩ := Option.isSome_iff_exists.mp hf
  rw [hx]
  rfl

theorem storeImagesAux_keys (s3ok : String → Bool) (bucket folder : String) :
    ∀ (idx : Nat) (l : List UploadFile),
      (storeImagesAux s3ok bucket folder idx l).contents.map (fun e => e.1) =
        (storeImagesAux s3ok bucket folder idx l).refs.map (fun r => r.filename)
  | _, [] => rfl
  | idx, img :: rest => by
    have ih := storeImagesAux_keys s3ok bucket folder (idx + 1) rest
    by_cases hv : imageValid img = true
    · by_cases hk : s3ok (s3Key folder "images"
        (strOr img.filename ("image_" ++ toString idx ++ ".jpg"))) = true
      · simp only [storeImagesAux, hv, if_true, upload_file_to_s3, hk, List.map_cons, ih]
      · simp only [storeImagesAux, hv, if_true, upload_file_to_s3, hk]
        exact ih
    · simp only [storeImagesAux, hv]
      simp only [Bool.false_eq_true, if_false]
      exact ih

theorem storeImagesAux_allok_length (s3ok : String → Bool) (bucket folder : String)
    (hS3 : ∀ k, s3ok k = true) :
    ∀ (idx : Nat) (l : List UploadFile),
      (storeImagesAux s3ok bucket folder idx l).refs.length = (l.filter imageValid).length
  | _, [] => rfl
  | idx, img :: rest => by
    have ih := storeImagesAux_allok_length s3ok bucket folder hS3 (idx + 1) rest
    by_cases hv : imageValid img = true
    · simp only [storeImagesAux, hv, if_true, upload_file_to_s3, hS3, List.filter_cons,
        List.length_cons, ih]
    · simp only [storeImagesAux, hv, List.filter_cons]
      simp only [Bool.false_eq_true, if_false]
      exact ih

theorem imageAnalysisAux_happy (bedrock : Bedrock) (contents : Dict (String × String))
    (context : String) (descs : List String)
    (hB : ∀ p c m, ∃ v, bedrock p c m = Except.ok v) :
    ∀ (idx : Nat) (refs : List StoredRef),
      (∀ r ∈ refs, (dictLookup contents r.filename).isSome = true) →
      (imageAnalysisAux bedrock contents context descs idx refs).length = refs.length ∧
      (imageAnalysisAux bedrock contents context descs idx refs).map
          (fun e => e.upload_index) = List.range' idx refs.length ∧
      (imageAnalysisAux bedrock contents context descs idx refs).map
          (fun e => e.filename) = refs.map (fun r => r.filename) ∧
      (imageAnalysisAux bedrock contents context descs idx refs).map
          (fun e => e.image_description) =
        (List.range' idx refs.length).map (fun i => descs.getD i "")
  | _, [], _ => by simp [imageAnalysisAux]
  | idx, r :: rest, h => by
    obtain ⟨cd, hcd⟩ := Option.isSome_iff_exists.mp (h r (List.mem_cons_self r rest))
    obtain ⟨v, hv⟩ := hB (imagePrompt context (descs.getD idx "")) cd.1 cd.2
    obtain ⟨ih1, ih2, ih3, ih4⟩ := imageAnalysisAux_happy bedrock contents context descs hB
      (idx + 1) rest (fun s hs => h s (List.mem_cons_of_mem r hs))
    refine ⟨?_, ?_, ?_, ?_⟩ <;>
      simp only [imageAnalysisAux, hcd, hv, List.length_cons, List.map_cons,
        List.range'_succ, ih1, ih2, ih3, ih4]

/-- Claim C6: with every backend write accepted and every inference call
succeeding, the analysis stage emits exactly one entry per type-valid image
and the upload_index values are the contiguous sequence 0, 1, ..., in the
stored (upload) order. -/
theorem c6_upload_index_contiguous (s3ok : String → Bool) (bucket folder context : String)
    (bedrock : Bedrock) (images : List UploadFile) (descs : List String)
    (hS3 : ∀ k, s3ok k = true)
    (hB : ∀ p c m, ∃ v, bedrock p c m = Except.ok v) :
    (image_analysis_agent bedrock (storage_agent s3ok bucket images none [] folder).1
        context descs).length = (images.filter imageValid).length ∧
    (image_analysis_agent bedrock (storage_agent s3ok bucket images none [] folder).1
        context descs).map (fun e => e.upload_index) =
      List.range (images.filter imageValid).length ∧
    (image_analysis_agent bedrock (storage_agent s3ok bucket images none [] folder).1
        context descs).map (fun e => e.filename) =
      (storage_agent s3ok bucket images none [] folder).1.images.map (fun r => r.filename) := by
  have hlk : ∀ r ∈ (storeImagesAux s3ok bucket folder 0 images).refs,
      (dictLookup (storeImagesAux s3ok bucket folder 0 images).contents r.filename).isSome = true := by
    intro r hr
    exact dictLookup_isSome_of_mem _ _
      (by rw [storeImagesAux_keys]; exact List.mem_map_of_mem _ hr)
  obtain ⟨h1, h2, h3, _⟩ := imageAnalysisAux_happy bedrock
    (storeImagesAux s3ok bucket folder 0 images).contents context descs hB 0
    (storeImagesAux s3ok bucket folder 0 images).refs hlk
  have hlen := storeImagesAux_allok_length s3ok bucket folder hS3 0 images
  refine ⟨?_, ?_, ?_⟩
  · simp only [image_analysis_agent, storage_agent]
    rw [h1, hlen]
  · simp only [image_analysis_agent, storage_agent]
    rw [h2, hlen, List.range_eq_range']
  · simp only [image_analysis_agent, storage_agent]
    exact h3

/-- Example always-succeeding multimodal inference backend. -/
def exBedOk : Bedrock := fun _ c _ => Except.ok ("an " ++ c)

/-- Example document upload failing image type validation. -/
def exmTxt : UploadFile :=
  { filename := some "x.txt", contentType := some "text/plain", content := "T" }

/-- Claim C6, witness at a batch with one type-invalid image. -/
theorem c6_upload_index_contiguous_witness :
    (image_analysis_agent exBedOk (storage_agent exAllOk "bkt" [exmA, exmTxt, exmB] none [] "f").1
        "" []).length = ([exmA, exmTxt, exmB].filter imageValid).length ∧
    (image_analysis_agent exBedOk (storage_agent exAllOk "bkt" [exmA, exmTxt, exmB] none [] "f").1
        "" []).map (fun e => e.upload_index) =
      List.range ([exmA, exmTxt, exmB].filter imageValid).length ∧
    (image_analysis_agent exBedOk (storage_agent exAllOk "bkt" [exmA, exmTxt, exmB] none [] "f").1
        "" []).map (fun e => e.filename) =
      (storage_agent exAllOk "bkt" [exmA, exmTxt, exmB] none [] "f").1.images.map
        (fun r => r.filename) :=
  c6_upload_index_contiguous exAllOk "bkt" "f" "" exBedOk [exmA, exmTxt, exmB] []
    (fun _ => rfl) (fun _ c _ => ⟨"an " ++ c, rfl⟩)

/-- Claim C8: with all images type-valid, all writes accepted and all
inference calls succeeding, the image at each position i receives the
description at position i when i is below the description count, and the
empty description otherwise; an out-of-range index is never an error, and
one entry is emitted per image. -/
theorem c8_positional_descriptions (s3ok : String → Bool) (bucket folder context : String)
    (bedrock : Bedrock) (images : List UploadFile) (descs : List String)
    (hS3 : ∀ k, s3ok k = true)
    (hB : ∀ p c m, ∃ v, bedrock p c m = Except.ok v)
    (hall : ∀ f ∈ images, imageValid f = true)
    (_hK : descs.length ≤ images.length) :
    (image_analysis_agent bedrock (storage_agent s3ok bucket images none [] folder).1
        context descs).length = images.length ∧
    (image_analysis_agent bedrock (storage_agent s3ok bucket images none [] folder).1
        context descs).map (fun e => e.image_description) =
      (List.range images.length).map (fun i => descs.getD i "") := by
  have hfilter : images.filter imageValid = images := List.filter_eq_self.mpr hall
  have hlk : ∀ r ∈ (storeImagesAux s3ok bucket folder 0 images).refs,
      (dictLookup (storeImagesAux s3ok bucket folder 0 images).contents r.filename).isSome = true := by
    intro r hr
    exact dictLookup_isSome_of_mem _ _
      (by rw [storeImagesAux_keys]; exact List.mem_map_of_mem _ hr)
  obtain ⟨h1, _, _, h4⟩ := imageAnalysisAux_happy bedrock
    (storeImagesAux s3ok bucket folder 0 images).contents context descs hB 0
    (storeImagesAux s3ok bucket folder 0 images).refs hlk
  have hlen := storeImagesAux_allok_length s3ok bucket folder hS3 0 images
  rw [hfilter] at hlen
  constructor
  · simp only [image_analysis_agent, storage_agent]
    rw [h1, hlen]
  · simp only [image_analysis_agent, storage_agent]
    rw [h4, hlen, List.range_eq_range']

/-- Claim C8, witness at two images and one description. -/
theorem c8_positional_descriptions_witness :
    (image_analysis_agent exBedOk (storage_agent exAllOk "bkt" [exmA, exmB] none [] "f").1
        "" ["first"]).length = ([exmA, exmB] : List UploadFile).length ∧
    (image_analysis_agent exBedOk (storage_agent exAllOk "bkt" [exmA, exmB] none [] "f").1
        "" ["first"]).map (fun e => e.image_description) =
      (List.range ([exmA, exmB] : List UploadFile).length).map
        (fun i => (["first"] : List String).getD i "") :=
  c8_positional_descriptions exAllOk "bkt" "f" "" exBedOk [exmA, exmB] ["first"]
    (fun _ => rfl) (fun _ c _ => ⟨"an " ++ c, rfl⟩) (by decide) (by decide)

/-! Claim C9. -/

/-- Claim C9: the prompt digest depends only on the first 10 rows, the full
column list, and the true total row count (two frames agreeing on those
yield the identical prompt), and the derived insights are exactly the first
min(5, row_count) rows rendered as column=value pairs, each tagged with its
original row index. -/
theorem c9_digest_and_insights_bounded (context : String) (df df2 : DataFrame)
    (hcols : df2.columns = df.columns) (h10 : df2.rows.take 10 = df.rows.take 10)
    (hlen : df2.rows.length = df.rows.length) :
    excelPromptFor context df2 = excelPromptFor context df ∧
    (excelInsightsFor df).length = min 5 df.rows.length ∧
    ∀ i, i < (excelInsightsFor df).length →
      ((excelInsightsFor df).getD i { row_index := 0, summary := "" }).row_index = i ∧
      ((excelInsightsFor df).getD i { row_index := 0, summary := "" }).summary =
        "Row " ++ toString i ++ ": " ++ rowSummaryEq df.columns (df.rows.getD i []) := by
  have hL : (excelInsightsFor df).length = min 5 df.rows.length := by
    simp [excelInsightsFor, List.enum_length, List.length_take]
  refine ⟨?_, hL, ?_⟩
  · unfold excelPromptFor
    rw [hcols, hlen, ← List.map_take, ← List.map_take, h10]
  · intro i hi
    have hi2 : i < min 5 df.rows.length := hL ▸ hi
    have hiR : i < df.rows.length := (Nat.lt_min.mp hi2).2
    have hiT : i < (df.rows.take 5).length := by
      rw [List.length_take]
      exact hi2
    have hiE : i < (df.rows.take 5).enum.length := by
      rw [List.enum_length]
      exact hiT
    unfold excelInsightsFor
    rw [List.getD_eq_getElem _ _ (by simpa [excelInsightsFor] using hi), List.getElem_map,
      List.getElem_enum, List.getElem_take, List.getD_eq_getElem _ _ hiR]
    exact ⟨rfl, rfl⟩

/-- Claim C9, witness: two six-row frames agreeing everywhere (here chosen
equal beyond row 10 trivially since both have six rows). -/
theorem c9_digest_and_insights_bounded_witness :
    excelPromptFor "ctx"
        { columns := ["a"], rows := [["1"], ["2"], ["3"], ["4"], ["5"], ["6"]] } =
      excelPromptFor "ctx"
        { columns := ["a"], rows := [["1"], ["2"], ["3"], ["4"], ["5"], ["6"]] } ∧
    (excelInsightsFor { columns := ["a"], rows := [["1"], ["2"], ["3"], ["4"], ["5"], ["6"]] }).length =
      min 5 ([["1"], ["2"], ["3"], ["4"], ["5"], ["6"]] : List (List String)).length ∧
    ∀ i, i < (excelInsightsFor { columns := ["a"], rows := [["1"], ["2"], ["3"], ["4"], ["5"], ["6"]] }).length →
      ((excelInsightsFor { columns := ["a"], rows := [["1"], ["2"], ["3"], ["4"], ["5"], ["6"]] }).getD i
          { row_index := 0, summary := "" }).row_index = i ∧
      ((excelInsightsFor { columns := ["a"], rows := [["1"], ["2"], ["3"], ["4"], ["5"], ["6"]] }).getD i
          { row_index := 0, summary := "" }).summary =
        "Row " ++ toString i ++ ": " ++
          rowSummaryEq ["a"] (([["1"], ["2"], ["3"], ["4"], ["5"], ["6"]] : List (List String)).getD i []) :=
  c9_digest_and_insights_bounded "ctx"
    { columns := ["a"], rows := [["1"], ["2"], ["3"], ["4"], ["5"], ["6"]] }
    { columns := ["a"], rows := [["1"], ["2"], ["3"], ["4"], ["5"], ["6"]] }
    rfl rfl rfl

end AwsDevpost
